import Mathlib

/-!
Verification of the cinema-booking permission policy.

The repository exposes one piece of design logic: the class
`IsAdminOrIfAuthenticatedReadOnly` in `cinema/permissions.py`, whose method
`has_permission(self, request, view)` returns `True` for safe methods and
otherwise `bool(request.user and request.user.is_staff)`.  The framework
constant `SAFE_METHODS` is the tuple `("GET", "HEAD", "OPTIONS")`.

We embed the method in two layers:

* `hasPermission` is the boolean abstraction of the decision.
* `hasPermissionPyE` follows the Python evaluation step by step: the value
  `request.user` is a Python value (a user object or `None`), the operator
  `and` short-circuits on falsy values, attribute access on a non-user value
  raises (modelled as `Option.none`), and the final `bool(...)` call converts
  the result of `and` to a boolean.

`hasPermissionRun` is the effectful reading of the call: the method body
contains no assignment, so the state it receives (the request with the user
record, and the view) is handed back unchanged next to the decision.
-/

namespace Cinema

/-- The framework constant `SAFE_METHODS = ("GET", "HEAD", "OPTIONS")`
imported at the top of `cinema/permissions.py`. -/
def SAFE_METHODS : List String := ["GET", "HEAD", "OPTIONS"]

/-- An authenticated principal; the policy reads only the `is_staff` flag
(the spec calls it `elevated`). -/
structure User where
  is_staff : Bool

/-- The target resource handler passed to `has_permission` as `view`; the
policy never inspects it, so any descriptive field stands for its content. -/
structure View where
  basename : String

/-- The request seen by the policy: the HTTP method string and
`request.user`, which is absent (`none`) for an anonymous caller. -/
structure Request where
  method : String
  user : Option User

/-- A Python runtime value, as far as the expression
`bool(request.user and request.user.is_staff)` can produce one. -/
inductive PyValue where
  | pyBool : Bool → PyValue
  | pyNone : PyValue
  | pyUser : User → PyValue

/-- Python truthiness: `None` is falsy, a user object is truthy, a bool is
itself. -/
def pyTruthy : PyValue → Bool
  | .pyBool b => b
  | .pyNone => false
  | .pyUser _ => true

/-- The runtime value of `request.user`. -/
def userValue : Option User → PyValue
  | none => .pyNone
  | some u => .pyUser u

/-- Attribute access `x.is_staff`: defined on a user object, an
`AttributeError` (modelled as `none`) on anything else. -/
def attrIsStaff : PyValue → Option PyValue
  | .pyUser u => some (.pyBool u.is_staff)
  | _ => none

/-- The Python operator `and` with short-circuit: if the left operand is
falsy it is returned unevaluated on the right; otherwise the right operand
is evaluated (and may raise). -/
def pyAndE (x : PyValue) (y : Unit → Option PyValue) : Option PyValue :=
  if pyTruthy x then y () else some x

/-- The builtin call `bool(x)`. -/
def pyBoolFn (x : PyValue) : PyValue := .pyBool (pyTruthy x)

/-- Boolean abstraction of `IsAdminOrIfAuthenticatedReadOnly.has_permission`:
return `True` when `request.method in SAFE_METHODS`, otherwise
`bool(request.user and request.user.is_staff)`. -/
def hasPermission (request : Request) (view : View) : Bool :=
  if request.method ∈ SAFE_METHODS then
    true
  else
    match request.user with
    | some u => u.is_staff
    | none => false

/-- Step-by-step embedding of the same method over Python values, with
attribute errors surfaced as `none`:  the safe branch returns the literal
`True`, the other branch evaluates
`bool(request.user and request.user.is_staff)` with short-circuit `and`. -/
def hasPermissionPyE (request : Request) (view : View) : Option PyValue :=
  if request.method ∈ SAFE_METHODS then
    some (.pyBool true)
  else
    (pyAndE (userValue request.user)
        (fun _ => attrIsStaff (userValue request.user))).map pyBoolFn

/-- Effectful reading of a call to `has_permission`: the body of the method
contains no assignment and no call with effects, so the state it was given
(the request, holding the user record, and the view) is returned next to
the decision exactly as received. -/
def hasPermissionRun (request : Request) (view : View) : Bool × Request × View :=
  (hasPermission request view, request, view)

/-- Outcome of the dispatch pipeline around the policy: the handler runs, or
the request is short-circuited with status 401 or status 403. -/
inductive Outcome where
  | handled
  | unauthenticated
  | forbidden

/-- Modelled from the spec: the request-dispatch pipeline that consumes
`has_permission` is framework code absent from the repository excerpt
(only the tests in `cinema/tests/test_movie_api.py` exercise it).  Per the
spec, on `false` it responds with the unauthenticated-access status when no
caller is present and with the authorization-denied status when the caller
is present but was denied; on `true` it forwards to the handler. -/
def pipeline (request : Request) (view : View) : Outcome :=
  if hasPermission request view then
    .handled
  else
    match request.user with
    | none => .unauthenticated
    | some _ => .forbidden

/-- Claim C1: for every unsafe method in {POST, PUT, PATCH, DELETE} and
every caller, the policy permits the request if and only if the caller is
present and the staff flag is true. -/
theorem unsafe_permit_iff_staff (m : String) (u : Option User) (v : View)
    (h : m ∈ ["POST", "PUT", "PATCH", "DELETE"]) :
    hasPermission ⟨m, u⟩ v = true ↔ ∃ x, u = some x ∧ x.is_staff = true := by
  have hns : m ∉ SAFE_METHODS := by fin_cases h <;> decide
  cases u with
  | none => simp [hasPermission, hns]
  | some x => simp [hasPermission, hns]

/-- Witness for C1 at method POST with a present staff caller. -/
theorem unsafe_permit_iff_staff_witness :
    "POST" ∈ ["POST", "PUT", "PATCH", "DELETE"] ∧
      (hasPermission ⟨"POST", some ⟨true⟩⟩ ⟨"movies"⟩ = true ↔
        ∃ x, some (⟨true⟩ : User) = some x ∧ x.is_staff = true) :=
  ⟨by decide, unsafe_permit_iff_staff "POST" (some ⟨true⟩) ⟨"movies"⟩ (by decide)⟩

/-- Claim C2: for every safe method in {GET, HEAD, OPTIONS} and every
caller, the policy permits the request unconditionally. -/
theorem safe_permit_true (m : String) (u : Option User) (v : View)
    (h : m ∈ SAFE_METHODS) : hasPermission ⟨m, u⟩ v = true := by
  simp [hasPermission, h]

/-- Witness for C2 at method GET with an anonymous caller. -/
theorem safe_permit_true_witness :
    "GET" ∈ SAFE_METHODS ∧ hasPermission ⟨"GET", none⟩ ⟨"movies"⟩ = true :=
  ⟨by decide, safe_permit_true "GET" none ⟨"movies"⟩ (by decide)⟩

/-- Claim C3: the policy is total — the step-by-step Python evaluation never
raises, for every method string and every caller, including an absent
caller on an unsafe method (the short-circuit `and` never reads the staff
flag of an absent user). -/
theorem permit_total (r : Request) (v : View) :
    (hasPermissionPyE r v).isSome = true := by
  obtain ⟨m, u⟩ := r
  by_cases h : m ∈ SAFE_METHODS
  · simp [hasPermissionPyE, h]
  · cases u <;>
      simp [hasPermissionPyE, h, pyAndE, userValue, pyTruthy, attrIsStaff]

/-- Claim C4: whenever the policy denies a request, the pipeline responds
with status 401 when no caller is present and with status 403 when the
caller is present but not elevated, and these are the only denial
outcomes. -/
theorem pipeline_denial (r : Request) (v : View)
    (h : hasPermission r v = false) :
    (r.user = none ∧ pipeline r v = .unauthenticated) ∨
      (∃ x, r.user = some x ∧ pipeline r v = .forbidden) := by
  cases hu : r.user with
  | none => exact .inl ⟨rfl, by simp [pipeline, h, hu]⟩
  | some x => exact .inr ⟨x, rfl, by simp [pipeline, h, hu]⟩

/-- Witness for C4 at an anonymous POST. -/
theorem pipeline_denial_witness :
    hasPermission ⟨"POST", none⟩ ⟨"movies"⟩ = false ∧
      (((⟨"POST", none⟩ : Request).user = none ∧
          pipeline ⟨"POST", none⟩ ⟨"movies"⟩ = .unauthenticated) ∨
        (∃ x, (⟨"POST", none⟩ : Request).user = some x ∧
          pipeline ⟨"POST", none⟩ ⟨"movies"⟩ = .forbidden)) :=
  ⟨by decide, pipeline_denial ⟨"POST", none⟩ ⟨"movies"⟩ (by decide)⟩

/-- Claim C5: the policy is deterministic and free of hidden state — a
second evaluation on the state left behind by a first evaluation with the
same inputs yields the same decision and the same state. -/
theorem permit_repeatable (r : Request) (v : View) :
    hasPermissionRun (hasPermissionRun r v).2.1 (hasPermissionRun r v).2.2 =
      hasPermissionRun r v := rfl

/-- Claim C6: the decision does not depend on the target resource — two
requests agreeing on method and caller receive the same decision for any
two views. -/
theorem permit_view_independent (r₁ r₂ : Request) (v₁ v₂ : View)
    (hm : r₁.method = r₂.method) (hu : r₁.user = r₂.user) :
    hasPermission r₁ v₁ = hasPermission r₂ v₂ := by
  simp [hasPermission, hm, hu]

/-- Witness for C6: same anonymous GET against two distinct views. -/
theorem permit_view_independent_witness :
    hasPermission ⟨"GET", none⟩ ⟨"movies"⟩ =
      hasPermission ⟨"GET", none⟩ ⟨"genres"⟩ :=
  permit_view_independent ⟨"GET", none⟩ ⟨"GET", none⟩ ⟨"movies"⟩ ⟨"genres"⟩
    rfl rfl

/-- Claim C7: for every method and caller the method returns exactly a
boolean value — the Python evaluation yields `some (pyBool b)` where `b` is
the abstract decision, never a user object, `None`, or an error. -/
theorem permit_returns_bool (r : Request) (v : View) :
    hasPermissionPyE r v = some (.pyBool (hasPermission r v)) := by
  obtain ⟨m, u⟩ := r
  by_cases h : m ∈ SAFE_METHODS
  · simp [hasPermissionPyE, hasPermission, h]
  · cases u <;>
      simp [hasPermissionPyE, hasPermission, h, pyAndE, userValue, pyTruthy,
        attrIsStaff, pyBoolFn]

/-- Claim C8: evaluating the policy mutates nothing — the request (hence
the caller record and its staff flag) and the view come back from the call
exactly as they went in. -/
theorem permit_no_mutation (r : Request) (v : View) :
    (hasPermissionRun r v).2.1 = r ∧ (hasPermissionRun r v).2.2 = v ∧
      ((hasPermissionRun r v).2.1).user = r.user :=
  ⟨rfl, rfl, rfl⟩

/-- Claim C9: default deny — every method string outside the safe set
{GET, HEAD, OPTIONS}, including TRACE, CONNECT or a lowercase spelling,
is permitted iff the caller is present and elevated; no unrecognized method
is granted unconditional access. -/
theorem default_deny_unsafe (m : String) (u : Option User) (v : View)
    (h : m ∉ SAFE_METHODS) :
    hasPermission ⟨m, u⟩ v = true ↔ ∃ x, u = some x ∧ x.is_staff = true := by
  cases u with
  | none => simp [hasPermission, h]
  | some x => simp [hasPermission, h]

/-- Witness for C9 at the lowercase method string get with a staff
caller. -/
theorem default_deny_unsafe_witness :
    "get" ∉ SAFE_METHODS ∧
      (hasPermission ⟨"get", some ⟨true⟩⟩ ⟨"movies"⟩ = true ↔
        ∃ x, some (⟨true⟩ : User) = some x ∧ x.is_staff = true) :=
  ⟨by decide, default_deny_unsafe "get" (some ⟨true⟩) ⟨"movies"⟩ (by decide)⟩

/-- Claim C10: elevation monotonicity — if the policy grants a method to
some caller, it also grants that method to a present, elevated caller. -/
theorem permit_monotone_elevation (m : String) (u : Option User) (v : View)
    (h : hasPermission ⟨m, u⟩ v = true) :
    hasPermission ⟨m, some ⟨true⟩⟩ v = true := by
  by_cases hm : m ∈ SAFE_METHODS <;> simp [hasPermission, hm]

/-- Witness for C10 at an anonymous GET. -/
theorem permit_monotone_elevation_witness :
    hasPermission ⟨"GET", none⟩ ⟨"movies"⟩ = true ∧
      hasPermission ⟨"GET", some ⟨true⟩⟩ ⟨"movies"⟩ = true :=
  ⟨by decide, permit_monotone_elevation "GET" none ⟨"movies"⟩ (by decide)⟩

end Cinema
